import Mathlib

/-!
Verification of the code-summarizer core of the llemur repository
(src/llemur/summarize.py), against its natural-language specification.

The lexical reducer (tokenize_code) is embedded over an abstract token
stream: the host tokenizer (Python stdlib tokenize) is an external
collaborator, so tokens are inputs of the model.  The structural
summarizer (CodeSummarizer) is embedded over an inductive syntax tree
mirroring the ast node kinds the source dispatches on.
-/

namespace Llemur

/-- Token kinds relevant to tokenize_code: the source tests COMMENT,
STRING and INDENT explicitly; all other kinds only flow through. -/
inductive TokKind where
  | comment
  | string
  | indent
  | dedent
  | name
  | op
  | number
  | newline
  | nl
  | endmarker
  deriving DecidableEq, Repr

/-- A token as consumed by tokenize_code: kind, text, start (row, col)
and end (row, col), rows 1-based as in Python tokenize. -/
structure Tok where
  kind : TokKind
  str : String
  srow : Nat
  scol : Nat
  erow : Nat
  ecol : Nat
  deriving DecidableEq, Repr

/-- n space characters, as produced by `" " * n` in the source. -/
def spaces (n : Nat) : String :=
  String.mk (List.replicate n ' ')

/-- Loop state of tokenize_code: accumulated output chunks, prev_toktype,
last_lineno (initialised to -1, hence Int) and last_col. -/
structure RState where
  out : List String
  prev : TokKind
  lastLineno : Int
  lastCol : Nat
  deriving DecidableEq, Repr

/-- One iteration of the token loop in tokenize_code
(src/llemur/summarize.py lines 106-124): skip comments; skip strings when
prev_toktype is INDENT; otherwise reset the column tracker on a new line,
emit the horizontal gap as spaces, emit the token text, and update
prev_toktype / last_lineno / last_col.  Skipped tokens leave the whole
state unchanged (the `continue` sits before every update). -/
def tokStep (s : RState) (t : Tok) : RState :=
  if t.kind = TokKind.comment then s
  else if t.kind = TokKind.string ∧ s.prev = TokKind.indent then s
  else
    let lc : Nat := if (t.srow : Int) > s.lastLineno then 0 else s.lastCol
    let out' := if t.scol > lc then s.out ++ [spaces (t.scol - lc), t.str]
                else s.out ++ [t.str]
    { out := out', prev := t.kind, lastLineno := (t.erow : Int), lastCol := t.ecol }

/-- The token loop of tokenize_code, folded over the stream. -/
def runTok (s : RState) : List Tok → RState
  | [] => s
  | t :: ts => runTok (tokStep s t) ts

/-- Initial state of tokenize_code: empty output, prev_toktype = INDENT,
last_lineno = -1, last_col = 0 (lines 99-103 of the source). -/
def initState : RState :=
  { out := [], prev := TokKind.indent, lastLineno := -1, lastCol := 0 }

/-- tokenize_code, over the abstract token stream: run the loop and join
the output chunks (line 127 of the source). -/
def tokenize_code (toks : List Tok) : String :=
  String.join (runTok initState toks).out

/-- Layout-reconstruction state without the docstring tracker: used to
render a token stream with NO dropping, for stating what tokenize_code
does as drop-then-render. -/
structure PState where
  out : List String
  lastLineno : Int
  lastCol : Nat
  deriving DecidableEq, Repr

/-- The gap-and-emit step of the loop (lines 116-124), with no skipping. -/
def renderStep (s : PState) (t : Tok) : PState :=
  let lc : Nat := if (t.srow : Int) > s.lastLineno then 0 else s.lastCol
  let out' := if t.scol > lc then s.out ++ [spaces (t.scol - lc), t.str]
              else s.out ++ [t.str]
  { out := out', lastLineno := (t.erow : Int), lastCol := t.ecol }

/-- Render loop with no dropping. -/
def runRender (s : PState) : List Tok → PState
  | [] => s
  | t :: ts => runRender (renderStep s t) ts

/-- Render a full token stream with original layout and no dropping.
For a well-behaved tokenization of a source text (tokens tile the text,
with space-only horizontal gaps), this reproduces the text. -/
def renderAll (toks : List Tok) : String :=
  String.join (runRender { out := [], lastLineno := -1, lastCol := 0 } toks).out

/-- The drop policy actually implemented by tokenize_code, expressed as a
stream filter: drop comments; drop a string when the kind of the last
KEPT token is indent (dropped tokens do not update the tracker, exactly
as the `continue` in the source skips the `prev_toktype` update). -/
def dropKept (prev : TokKind) : List Tok → List Tok
  | [] => []
  | t :: ts =>
    if t.kind = TokKind.comment then dropKept prev ts
    else if t.kind = TokKind.string ∧ prev = TokKind.indent then dropKept prev ts
    else t :: dropKept t.kind ts

/-- Modelled from the spec: the claim's drop policy, in which the
previous-token tracker advances on EVERY token, dropped ones included
("the kind seen just before it, regardless of whether that token was
itself dropped").  Kept for comparison with dropKept. -/
def dropClaim (prev : TokKind) : List Tok → List Tok
  | [] => []
  | t :: ts =>
    if t.kind = TokKind.comment then dropClaim t.kind ts
    else if t.kind = TokKind.string ∧ prev = TokKind.indent then dropClaim t.kind ts
    else t :: dropClaim t.kind ts

/-- Forget the docstring tracker of an RState. -/
def RState.toP (s : RState) : PState :=
  { out := s.out, lastLineno := s.lastLineno, lastCol := s.lastCol }

/-- Remove the comment tokens of a stream (reference stream transform for
stating that comments are transparent to tokenize_code). -/
def removeComments : List Tok → List Tok
  | [] => []
  | t :: ts =>
    if t.kind = TokKind.comment then removeComments ts else t :: removeComments ts

/-- Token stream of the source text
"def f():\n    \x22doc\x22 \x22more\x22\n    pass\n"
as produced by the Python tokenizer: the two STRING tokens are adjacent
(implicit string concatenation in docstring position). -/
def c2Toks : List Tok :=
  [ { kind := TokKind.name, str := "def", srow := 1, scol := 0, erow := 1, ecol := 3 },
    { kind := TokKind.name, str := "f", srow := 1, scol := 4, erow := 1, ecol := 5 },
    { kind := TokKind.op, str := "(", srow := 1, scol := 5, erow := 1, ecol := 6 },
    { kind := TokKind.op, str := ")", srow := 1, scol := 6, erow := 1, ecol := 7 },
    { kind := TokKind.op, str := ":", srow := 1, scol := 7, erow := 1, ecol := 8 },
    { kind := TokKind.newline, str := "\n", srow := 1, scol := 8, erow := 1, ecol := 9 },
    { kind := TokKind.indent, str := "    ", srow := 2, scol := 0, erow := 2, ecol := 4 },
    { kind := TokKind.string, str := "\x22doc\x22", srow := 2, scol := 4, erow := 2, ecol := 9 },
    { kind := TokKind.string, str := "\x22more\x22", srow := 2, scol := 10, erow := 2, ecol := 16 },
    { kind := TokKind.newline, str := "\n", srow := 2, scol := 16, erow := 2, ecol := 17 },
    { kind := TokKind.name, str := "pass", srow := 3, scol := 4, erow := 3, ecol := 8 },
    { kind := TokKind.newline, str := "\n", srow := 3, scol := 8, erow := 3, ecol := 9 },
    { kind := TokKind.dedent, str := "", srow := 4, scol := 0, erow := 4, ecol := 0 },
    { kind := TokKind.endmarker, str := "", srow := 4, scol := 0, erow := 4, ecol := 0 } ]

/-- Token stream of the comment-free, docstring-free source "x = 1\n". -/
def c6Toks : List Tok :=
  [ { kind := TokKind.name, str := "x", srow := 1, scol := 0, erow := 1, ecol := 1 },
    { kind := TokKind.op, str := "=", srow := 1, scol := 2, erow := 1, ecol := 3 },
    { kind := TokKind.number, str := "1", srow := 1, scol := 4, erow := 1, ecol := 5 },
    { kind := TokKind.newline, str := "\n", srow := 1, scol := 5, erow := 1, ecol := 6 },
    { kind := TokKind.endmarker, str := "", srow := 2, scol := 0, erow := 2, ecol := 0 } ]

/-- A comment token, as on the line "x = 1  # note". -/
def c8c : Tok :=
  { kind := TokKind.comment, str := "# note", srow := 1, scol := 7, erow := 1, ecol := 13 }

/-- A name token at column 0 of line 2. -/
def c8t : Tok :=
  { kind := TokKind.name, str := "y", srow := 2, scol := 0, erow := 2, ecol := 1 }

/-- Token stream of "x = 1  # note\ny = 2\n": a trailing comment on line 1
followed by a token at column 0 of line 2. -/
def c8Toks : List Tok :=
  [ { kind := TokKind.name, str := "x", srow := 1, scol := 0, erow := 1, ecol := 1 },
    { kind := TokKind.op, str := "=", srow := 1, scol := 2, erow := 1, ecol := 3 },
    { kind := TokKind.number, str := "1", srow := 1, scol := 4, erow := 1, ecol := 5 },
    { kind := TokKind.comment, str := "# note", srow := 1, scol := 7, erow := 1, ecol := 13 },
    { kind := TokKind.nl, str := "\n", srow := 1, scol := 13, erow := 1, ecol := 14 },
    { kind := TokKind.name, str := "y", srow := 2, scol := 0, erow := 2, ecol := 1 },
    { kind := TokKind.op, str := "=", srow := 2, scol := 2, erow := 2, ecol := 3 },
    { kind := TokKind.number, str := "2", srow := 2, scol := 4, erow := 2, ecol := 5 },
    { kind := TokKind.newline, str := "\n", srow := 2, scol := 5, erow := 2, ecol := 6 },
    { kind := TokKind.endmarker, str := "", srow := 3, scol := 0, erow := 3, ecol := 0 } ]

/- ----------------------------------------------------------------- -/
/- Structural summarizer: syntax-tree model (CodeSummarizer).        -/
/- ----------------------------------------------------------------- -/

/-- Binary operators: get_operator maps Add/Sub/Mult/Div to symbols and
every other operator class to "?" via the dict default (lines 282-291);
all other operator classes are collapsed into otherOp. -/
inductive Op where
  | add
  | sub
  | mult
  | div
  | otherOp
  deriving DecidableEq, Repr

/-- Expression nodes get_name dispatches on (lines 259-280): Name,
Attribute, Call, Constant, BinOp; every other expression kind falls
through to the "..." placeholder and is collapsed into otherExpr.
A Constant carries the Python str() rendering of its value. -/
inductive Expr where
  | name (id : String)
  | attribute (value : Expr) (attr : String)
  | call (func : Expr) (args : List Expr)
  | constant (text : String)
  | binOp (left : Expr) (op : Op) (right : Expr)
  | otherExpr
  deriving Repr

/-- Statement nodes the summarizer dispatches on: FunctionDef,
AsyncFunctionDef (no visitor method, so only generically traversed),
ClassDef, Assign, If, For, Expr statements, Return; every other
statement kind (While, With, Try, Raise, Pass, ...) is collapsed into
otherStmt carrying its child statements in field order, since
generic_visit still descends into them. -/
inductive Stmt where
  | functionDef (name : String) (args : List String) (body : List Stmt)
  | asyncFunctionDef (name : String) (args : List String) (body : List Stmt)
  | classDef (name : String) (body : List Stmt)
  | assign (targets : List Expr) (value : Expr)
  | ifStmt (test : Expr) (body : List Stmt) (orelse : List Stmt)
  | forStmt (target : Expr) (iter : Expr) (body : List Stmt) (orelse : List Stmt)
  | exprStmt (value : Expr)
  | returnStmt (value : Option Expr)
  | otherStmt (children : List Stmt)
  deriving Repr

/-- get_operator (lines 282-291): dict lookup with default "?". -/
def get_operator (op : Op) : String :=
  match op with
  | Op.add => "+"
  | Op.sub => "-"
  | Op.mult => "*"
  | Op.div => "/"
  | Op.otherOp => "?"

/-- get_name (lines 259-280): identifier text; base.attr; callee of a
call; str() of a constant; left op right for BinOp; "..." otherwise. -/
def get_name : Expr → String
  | Expr.name id => id
  | Expr.attribute v a => get_name v ++ "." ++ a
  | Expr.call f _ => get_name f
  | Expr.constant t => t
  | Expr.binOp l op r => get_name l ++ " " ++ get_operator op ++ " " ++ get_name r
  | Expr.otherExpr => "..."

/-- get_name applied to an optional expression: ast.Return with no value
has value None, and get_name(None) matches no isinstance branch, falling
through to "...". -/
def get_name_opt : Option Expr → String
  | some e => get_name e
  | none => "..."

/-- One statement's contribution to the body digest
(summarize_function_body, lines 232-255): the recognized kinds each
produce exactly one fragment, every other kind produces nothing. -/
def digestStmt : Stmt → Option String
  | Stmt.assign targets value =>
      some (String.intercalate ", " (targets.map get_name) ++ " = " ++ get_name value)
  | Stmt.ifStmt test _ _ => some ("if " ++ get_name test ++ ": ...")
  | Stmt.forStmt target iter _ _ =>
      some ("for " ++ get_name target ++ " in " ++ get_name iter ++ ": ...")
  | Stmt.exprStmt (Expr.call f args) =>
      some (get_name f ++ "(" ++ String.intercalate ", " (args.map get_name) ++ ")")
  | Stmt.returnStmt v => some ("return " ++ get_name_opt v)
  | _ => none

/-- Whether a statement kind is in the recognized set of the body digest
(assignment, if, for, expression-statement wrapping a call, return). -/
def recognized : Stmt → Bool
  | Stmt.assign _ _ => true
  | Stmt.ifStmt _ _ _ => true
  | Stmt.forStmt _ _ _ _ => true
  | Stmt.exprStmt (Expr.call _ _) => true
  | Stmt.returnStmt _ => true
  | _ => false

/-- summarize_function_body (lines 220-257): collect the fragments of the
direct statement list in order and join them with " | ". -/
def summarize_function_body (body : List Stmt) : String :=
  String.intercalate " | " (body.filterMap digestStmt)

/-- The header part of a function entry (line 204):
"Function: name(arg1, arg2)". -/
def funcHeader (name : String) (args : List String) : String :=
  "Function: " ++ name ++ "(" ++ String.intercalate ", " args ++ ")"

/-- The full entry emitted by visit_FunctionDef (lines 201-211): the
header, plus "\n  Body: digest" when the digest is non-empty (Python
string truthiness: the suffix is appended iff the digest is not ""). -/
def functionEntry (name : String) (args : List String) (body : List Stmt) : String :=
  let bs := summarize_function_body body
  if bs = "" then funcHeader name args else funcHeader name args ++ "\n  Body: " ++ bs

mutual

/-- The visitor (CodeSummarizer, lines 191-218): visit_FunctionDef emits
one entry then generic-visits the node (children of a FunctionDef that
can contain definitions are exactly its body statements); there is no
visit_AsyncFunctionDef, so an async def is only generic-visited;
visit_ClassDef emits "Class: name" then generic-visits; every other
statement kind is generic-visited, descending into its child statement
lists in field order.  Expressions contain no statements, so
generic-visiting them emits nothing. -/
def visitStmt : Stmt → List String
  | Stmt.functionDef n a b => functionEntry n a b :: visitStmts b
  | Stmt.asyncFunctionDef _ _ b => visitStmts b
  | Stmt.classDef n b => ("Class: " ++ n) :: visitStmts b
  | Stmt.assign _ _ => []
  | Stmt.ifStmt _ b o => visitStmts b ++ visitStmts o
  | Stmt.forStmt _ _ b o => visitStmts b ++ visitStmts o
  | Stmt.exprStmt _ => []
  | Stmt.returnStmt _ => []
  | Stmt.otherStmt cs => visitStmts cs

/-- Visit a statement list in order, concatenating emitted entries. -/
def visitStmts : List Stmt → List String
  | [] => []
  | s :: rest => visitStmt s ++ visitStmts rest

end

mutual

/-- Modelled from the spec: the pre-order, depth-first list of the
FunctionDef and ClassDef nodes of a statement (the node itself first,
then the definitions of its body, in order); used as the specification
side of the traversal-order claims. -/
def defsPre : Stmt → List Stmt
  | Stmt.functionDef n a b => Stmt.functionDef n a b :: defsPreList b
  | Stmt.asyncFunctionDef _ _ b => defsPreList b
  | Stmt.classDef n b => Stmt.classDef n b :: defsPreList b
  | Stmt.assign _ _ => []
  | Stmt.ifStmt _ b o => defsPreList b ++ defsPreList o
  | Stmt.forStmt _ _ b o => defsPreList b ++ defsPreList o
  | Stmt.exprStmt _ => []
  | Stmt.returnStmt _ => []
  | Stmt.otherStmt cs => defsPreList cs

/-- Pre-order definition list of a statement sequence. -/
def defsPreList : List Stmt → List Stmt
  | [] => []
  | s :: rest => defsPre s ++ defsPreList rest

end

/-- The single entry a definition node contributes. -/
def entryOf : Stmt → String
  | Stmt.functionDef n a b => functionEntry n a b
  | Stmt.classDef n _ => "Class: " ++ n
  | _ => ""

/-- Whether a statement is a (synchronous) function definition. -/
def isFuncDef : Stmt → Bool
  | Stmt.functionDef _ _ _ => true
  | _ => false

/-- Whether a statement is a class definition. -/
def isClassDef : Stmt → Bool
  | Stmt.classDef _ _ => true
  | _ => false

/-- get_summary (lines 293-297) after visiting Module(body): the emitted
entries joined with newlines. -/
def get_summary (body : List Stmt) : String :=
  String.intercalate "\n" (visitStmts body)

/- ----------------------------------------------------------------- -/
/- Pipeline: summarize_code_with_ast, compress_code, summarize_file. -/
/- ----------------------------------------------------------------- -/

/-- summarize_code_with_ast (lines 169-188): parse the reduced text; on
success visit the tree and return the summary; a parse failure
(SyntaxError) is caught HERE and returned as "Error in parsing code: e".
The host parser is an external collaborator, passed as an oracle. -/
def summarize_code_with_ast (parse : String → Except String (List Stmt))
    (code : String) : String :=
  match parse code with
  | Except.ok tree => get_summary tree
  | Except.error e => "Error in parsing code: " ++ e

/-- compress_code (lines 68-84): tokenize-and-reduce, then summarize.
The host tokenizer (an oracle) can fail on malformed input
(tokenize.TokenizeError); that failure is NOT caught here and
propagates. -/
def compress_code (tokr : String → Except String (List Tok))
    (parse : String → Except String (List Stmt)) (code : String) :
    Except String String :=
  match tokr code with
  | Except.error e => Except.error e
  | Except.ok toks => Except.ok (summarize_code_with_ast parse (tokenize_code toks))

/-- summarize_file (lines 14-31): read the file (the read outcome is an
input of the model), compress, and convert any escaping exception into
"Error summarizing file_path: e".  Totality of this Lean function models
the no-exception-crosses-the-boundary contract. -/
def summarize_file (tokr : String → Except String (List Tok))
    (parse : String → Except String (List Stmt))
    (file_path : String) (readResult : Except String String) : String :=
  match readResult with
  | Except.error e => "Error summarizing " ++ file_path ++ ": " ++ e
  | Except.ok code =>
    match compress_code tokr parse code with
    | Except.error e => "Error summarizing " ++ file_path ++ ": " ++ e
    | Except.ok s => s

/-- Tokenizer-oracle behaviour of CPython tokenize on the source
"return =": tokenization succeeds (the tokenizer does not check grammar),
producing NAME, OP, implicit NEWLINE and ENDMARKER. -/
def c1Toks : List Tok :=
  [ { kind := TokKind.name, str := "return", srow := 1, scol := 0, erow := 1, ecol := 6 },
    { kind := TokKind.op, str := "=", srow := 1, scol := 7, erow := 1, ecol := 8 },
    { kind := TokKind.newline, str := "", srow := 1, scol := 8, erow := 1, ecol := 9 },
    { kind := TokKind.endmarker, str := "", srow := 2, scol := 0, erow := 2, ecol := 0 } ]

/-- Oracle recording that CPython tokenize succeeds on "return =". -/
def c1Tokr : String → Except String (List Tok) :=
  fun _ => Except.ok c1Toks

/-- Oracle recording that ast.parse raises SyntaxError on "return =". -/
def c1Parse : String → Except String (List Stmt) :=
  fun _ => Except.error "invalid syntax (<unknown>, line 1)"

/-- Module body with one top-level function and one top-level class,
no nesting: "def f(x):\n    return x\nclass C:\n    pass\n". -/
def c7Stmts : List Stmt :=
  [ Stmt.functionDef "f" ["x"] [Stmt.returnStmt (some (Expr.name "x"))],
    Stmt.classDef "C" [Stmt.otherStmt []] ]

/-- A recognized statement before the insertion point: x = 1. -/
def c4Pre : List Stmt := [Stmt.assign [Expr.name "x"] (Expr.constant "1")]

/-- Statements after the insertion point. -/
def c4Post : List Stmt := [Stmt.exprStmt (Expr.call (Expr.name "log") [Expr.name "x"])]

/-- An unrecognized statement kind (a bare raise or a while loop: no
digest branch matches, generic child list empty here). -/
def c4U : Stmt := Stmt.otherStmt []

/-- A recognized return statement. -/
def c4R : Stmt := Stmt.returnStmt (some (Expr.name "x"))

/- ----------------------------------------------------------------- -/
/- Helper lemmas.                                                    -/
/- ----------------------------------------------------------------- -/

theorem runTok_eq_runRender_dropKept (toks : List Tok) :
    ∀ s : RState, (runTok s toks).toP = runRender s.toP (dropKept s.prev toks) := by
  induction toks with
  | nil => intro s; rfl
  | cons t ts ih =>
    intro s
    by_cases hc : t.kind = TokKind.comment
    · simp [runTok, dropKept, hc, tokStep, ih]
    · by_cases hs : t.kind = TokKind.string ∧ s.prev = TokKind.indent
      · simp [runTok, dropKept, hc, hs, tokStep, ih]
      · simp only [runTok, dropKept, if_neg hc, if_neg hs]
        rw [ih]
        have h1 : (tokStep s t).toP = renderStep s.toP t := by
          simp [tokStep, renderStep, if_neg hc, if_neg hs, RState.toP]
        have h2 : (tokStep s t).prev = t.kind := by
          simp [tokStep, if_neg hc, if_neg hs]
        rw [h1, h2, runRender]

theorem tokenize_code_eq_drop_render (toks : List Tok) :
    tokenize_code toks = renderAll (dropKept TokKind.indent toks) := by
  rw [tokenize_code, renderAll,
    show (runTok initState toks).out = ((runTok initState toks).toP).out from rfl,
    runTok_eq_runRender_dropKept]
  rfl

theorem runTok_removeComments (toks : List Tok) :
    ∀ s : RState, runTok s (removeComments toks) = runTok s toks := by
  induction toks with
  | nil => intro s; rfl
  | cons t ts ih =>
    intro s
    by_cases hc : t.kind = TokKind.comment
    · simp [removeComments, hc, runTok, tokStep, ih]
    · simp [removeComments, hc, runTok, ih]

mutual

theorem visitStmt_eq_defs (s : Stmt) : visitStmt s = (defsPre s).map entryOf := by
  cases s with
  | functionDef n a b => simp [visitStmt, defsPre, entryOf, visitStmts_eq_defs b]
  | asyncFunctionDef n a b => simp [visitStmt, defsPre, visitStmts_eq_defs b]
  | classDef n b => simp [visitStmt, defsPre, entryOf, visitStmts_eq_defs b]
  | assign t v => simp [visitStmt, defsPre]
  | ifStmt t b o => simp [visitStmt, defsPre, visitStmts_eq_defs b, visitStmts_eq_defs o]
  | forStmt t i b o => simp [visitStmt, defsPre, visitStmts_eq_defs b, visitStmts_eq_defs o]
  | exprStmt v => simp [visitStmt, defsPre]
  | returnStmt v => simp [visitStmt, defsPre]
  | otherStmt cs => simp [visitStmt, defsPre, visitStmts_eq_defs cs]

theorem visitStmts_eq_defs (l : List Stmt) : visitStmts l = (defsPreList l).map entryOf := by
  cases l with
  | nil => simp [visitStmts, defsPreList]
  | cons s rest => simp [visitStmts, defsPreList, visitStmt_eq_defs s, visitStmts_eq_defs rest]

end

theorem defsPreList_eq_self (stmts : List Stmt) (h : ∀ s ∈ stmts, defsPre s = [s]) :
    defsPreList stmts = stmts := by
  induction stmts with
  | nil => simp [defsPreList]
  | cons s rest ih =>
    simp [defsPreList, h s (List.mem_cons_self s rest),
      ih (fun x hx => h x (List.mem_cons_of_mem s hx))]

theorem countP_add_eq_length (stmts : List Stmt)
    (h : ∀ s ∈ stmts, (isFuncDef s || isClassDef s) = true) :
    stmts.countP (fun s => isFuncDef s) + stmts.countP (fun s => isClassDef s) =
      stmts.length := by
  induction stmts with
  | nil => simp
  | cons s rest ih =>
    have hs := h s (List.mem_cons_self s rest)
    have ihr := ih (fun x hx => h x (List.mem_cons_of_mem s hx))
    by_cases hf : isFuncDef s = true
    · have hcl : isClassDef s = false := by
        cases s <;> simp_all [isFuncDef, isClassDef]
      simp [List.countP_cons, hf, hcl]
      omega
    · have hcl : isClassDef s = true := by
        simp only [Bool.or_eq_true] at hs
        rcases hs with hs | hs
        · exact absurd hs hf
        · exact hs
      simp [List.countP_cons, hf, hcl]
      omega

/- ----------------------------------------------------------------- -/
/- Claim theorems.                                                   -/
/- ----------------------------------------------------------------- -/

/-- C2 counterexample: on the token stream of
"def f():\n    \x22doc\x22 \x22more\x22\n    pass\n" (two adjacent STRING
tokens in docstring position), tokenize_code also drops the second
string (the tracker still reads INDENT because the dropped first string
never updated it), while the claim's drop policy — the previous token
"regardless of whether that token was itself dropped" — keeps it.  The
two outputs differ, so the claim's description of the drop rule is
false of the code. -/
theorem tokenize_code_prev_kind_counterexample :
    tokenize_code c2Toks = "def f():\n                \n    pass\n" ∧
    renderAll (dropClaim TokKind.indent c2Toks) =
      "def f():\n          \x22more\x22\n    pass\n" ∧
    tokenize_code c2Toks ≠ renderAll (dropClaim TokKind.indent c2Toks) := by
  refine ⟨by decide, by decide, by decide⟩

/-- C2 (amended): tokenize_code drops exactly the comment tokens and the
string tokens whose previous KEPT token was an indent token — dropped
tokens are invisible to the tracker, because the `continue` skips the
prev_toktype update; every other token is kept and rendered with its
original layout.  Formally: the fused loop equals the dropKept stream
filter (tracker advancing only on kept tokens, initialised to indent)
followed by pure layout rendering.  The claim's consequences stand: a
docstring-shaped literal right after an indent is always removed, and a
string literal whose previous kept token is not an indent is kept. -/
theorem tokenize_code_drop_policy (toks : List Tok) :
    tokenize_code toks = renderAll (dropKept TokKind.indent toks) :=
  tokenize_code_eq_drop_render toks

/-- C6: on a token stream in which nothing is dropped (no comment tokens
and no docstring-position strings, i.e. the drop filter is the identity)
and whose layout rendering reproduces the source text (the
well-behavedness contract of the external tokenizer: tokens tile the
text with space-only horizontal gaps), tokenize_code returns the source
text unchanged; in particular reducing already-reduced text is a no-op,
so the reducer is idempotent. -/
theorem reducer_identity_on_clean_input (toks : List Tok) (code : String)
    (h1 : dropKept TokKind.indent toks = toks) (h2 : renderAll toks = code) :
    tokenize_code toks = code := by
  rw [tokenize_code_eq_drop_render, h1, h2]

/-- C6 witness: the comment-free, docstring-free source "x = 1\n" is
reproduced exactly. -/
theorem reducer_identity_on_clean_input_witness :
    dropKept TokKind.indent c6Toks = c6Toks ∧
    renderAll c6Toks = "x = 1\n" ∧
    tokenize_code c6Toks = "x = 1\n" :=
  ⟨by decide, by decide,
    reducer_identity_on_clean_input c6Toks "x = 1\n" (by decide) (by decide)⟩

/-- C8: a dropped comment leaves the loop state completely unchanged
(so the whole output equals the output of the comment-free stream —
third conjunct), and for any token starting on a later line than the
last emitted token the column tracker is reset and the emitted gap is
exactly the token's own start column, independent of anything on the
comment's line; hence removing a comment never changes the column of a
token on a later line.  Only the spacing emitted before the next kept
token on the comment's own line absorbs the comment's footprint. -/
theorem comment_removal_preserves_columns (s : RState) (c t : Tok)
    (toks : List Tok)
    (hc : c.kind = TokKind.comment)
    (hrow : (t.srow : Int) > s.lastLineno)
    (ht1 : ¬ t.kind = TokKind.comment)
    (ht2 : ¬ (t.kind = TokKind.string ∧ s.prev = TokKind.indent)) :
    tokStep s c = s ∧
    (tokStep s t).out = (if 0 < t.scol then s.out ++ [spaces t.scol, t.str]
                         else s.out ++ [t.str]) ∧
    tokenize_code toks = tokenize_code (removeComments toks) := by
  refine ⟨by simp [tokStep, hc], ?_, ?_⟩
  · simp [tokStep, if_neg ht1, if_neg ht2, if_pos hrow]
  · rw [tokenize_code, tokenize_code, runTok_removeComments]

/-- C8 witness: instantiated at the trailing comment of
"x = 1  # note\ny = 2\n" and the column-0 token of line 2. -/
theorem comment_removal_preserves_columns_witness :
    tokStep initState c8c = initState ∧
    (tokStep initState c8t).out =
      (if 0 < c8t.scol then initState.out ++ [spaces c8t.scol, c8t.str]
       else initState.out ++ [c8t.str]) ∧
    tokenize_code c8Toks = tokenize_code (removeComments c8Toks) :=
  comment_removal_preserves_columns initState c8c c8t c8Toks (by decide)
    (by decide) (by decide) (by decide)

/-- C9: a string literal that is the very first token of the input is
removed even though no indent token precedes it, because prev_toktype is
initialised to INDENT before any token is read: dropping it leaves the
state untouched, so the output is as if the token were absent. -/
theorem leading_string_dropped (t : Tok) (ts : List Tok)
    (h : t.kind = TokKind.string) :
    tokenize_code (t :: ts) = tokenize_code ts := by
  have hstep : tokStep initState t = initState := by
    simp [tokStep, h, initState]
  simp [tokenize_code, runTok, hstep]

/-- C9 witness: a module docstring on line 1 of the file is dropped. -/
theorem leading_string_dropped_witness :
    (Tok.mk TokKind.string "\x22module doc\x22" 1 0 1 12).kind = TokKind.string ∧
    tokenize_code [Tok.mk TokKind.string "\x22module doc\x22" 1 0 1 12] =
      tokenize_code [] :=
  ⟨rfl, leading_string_dropped (Tok.mk TokKind.string "\x22module doc\x22" 1 0 1 12) [] rfl⟩

/-- C3: the entries emitted by the visitor are exactly one per
FunctionDef/ClassDef node of the pre-order, depth-first traversal, in
pre-order position (first conjunct); and a definition's own entry sits
strictly before the entries of everything nested in its body, since
visit_FunctionDef / visit_ClassDef emit the parent entry and only then
generic-visit the body (second and third conjuncts).  In particular a
function defined inside another function yields two separate entries,
outer first. -/
theorem preorder_one_entry_per_def :
    (∀ body : List Stmt, visitStmts body = (defsPreList body).map entryOf) ∧
    (∀ n a b, visitStmt (Stmt.functionDef n a b) = functionEntry n a b :: visitStmts b) ∧
    (∀ n b, visitStmt (Stmt.classDef n b) = ("Class: " ++ n) :: visitStmts b) := by
  refine ⟨visitStmts_eq_defs, ?_, ?_⟩ <;> intros <;> simp [visitStmt]

/-- C4: the body digest iterates the direct statement list in order;
the recognized kinds are exactly those with a digest fragment (first
conjunct); an unrecognized statement contributes nothing and does not
disturb fragments of later recognized statements (second conjunct); a
recognized statement contributes exactly one fragment, in position
(third conjunct); fragments are joined with " | " by definition of
summarize_function_body; and the "\n  Body: " suffix is appended to the
entry iff the digest is non-empty (fourth conjunct). -/
theorem body_digest_spec (pre post : List Stmt) (u r : Stmt) (f : String)
    (n : String) (a : List String) (b : List Stmt)
    (hu : digestStmt u = none) (hr : digestStmt r = some f) :
    (∀ s : Stmt, (digestStmt s).isSome = recognized s) ∧
    summarize_function_body (pre ++ u :: post) = summarize_function_body (pre ++ post) ∧
    (pre ++ r :: post).filterMap digestStmt =
      pre.filterMap digestStmt ++ f :: post.filterMap digestStmt ∧
    functionEntry n a b =
      (if summarize_function_body b = "" then funcHeader n a
       else funcHeader n a ++ "\n  Body: " ++ summarize_function_body b) := by
  refine ⟨?_, ?_, ?_, rfl⟩
  · intro s
    cases s with
    | exprStmt v => cases v <;> rfl
    | _ => rfl
  · simp [summarize_function_body, List.filterMap_append, List.filterMap_cons, hu]
  · simp [List.filterMap_append, List.filterMap_cons, hr]

/-- C4 witness: pre = [x = 1], post = [log(x)], unrecognized u (bare
raise / while shape), recognized r = return x, and an entry whose body
digest is empty. -/
theorem body_digest_spec_witness :
    summarize_function_body (c4Pre ++ c4U :: c4Post) =
      summarize_function_body (c4Pre ++ c4Post) ∧
    (c4Pre ++ c4R :: c4Post).filterMap digestStmt =
      c4Pre.filterMap digestStmt ++ "return x" :: c4Post.filterMap digestStmt ∧
    functionEntry "f" ["x"] [c4U] =
      (if summarize_function_body [c4U] = "" then funcHeader "f" ["x"]
       else funcHeader "f" ["x"] ++ "\n  Body: " ++ summarize_function_body [c4U]) :=
  ⟨(body_digest_spec c4Pre c4Post c4U c4R "return x" "f" ["x"] [c4U] rfl rfl).2.1,
   (body_digest_spec c4Pre c4Post c4U c4R "return x" "f" ["x"] [c4U] rfl rfl).2.2.1,
   (body_digest_spec c4Pre c4Post c4U c4R "return x" "f" ["x"] [c4U] rfl rfl).2.2.2⟩

/-- C5: get_name renders a simple identifier as its text; an attribute
access as the rendered base followed by ".attr"; a call used as a value
as just its rendered callee (arguments dropped); a constant as its
textual form; a binary operation as "left op right" with op one of
+ - * / and every other operator class (collapsed into otherOp, the
dict-lookup default) as "?"; and any other expression kind as the
placeholder "...". -/
theorem get_name_rendering :
    (∀ id, get_name (Expr.name id) = id) ∧
    (∀ v a, get_name (Expr.attribute v a) = get_name v ++ "." ++ a) ∧
    (∀ f args, get_name (Expr.call f args) = get_name f) ∧
    (∀ t, get_name (Expr.constant t) = t) ∧
    (∀ l op r, get_name (Expr.binOp l op r) =
      get_name l ++ " " ++ get_operator op ++ " " ++ get_name r) ∧
    get_operator Op.add = "+" ∧ get_operator Op.sub = "-" ∧
    get_operator Op.mult = "*" ∧ get_operator Op.div = "/" ∧
    get_operator Op.otherOp = "?" ∧
    get_name Expr.otherExpr = "..." := by
  exact ⟨fun _ => rfl, fun _ _ => rfl, fun _ _ => rfl, fun _ => rfl,
    fun _ _ _ => rfl, rfl, rfl, rfl, rfl, rfl, rfl⟩

/-- C7: for a module body whose statements are all top-level function or
class definitions with no nested definitions, the report consists of
exactly one entry per statement, in source declaration order, so the
entry count is N + M (N functions, M classes). -/
theorem top_level_line_count (stmts : List Stmt)
    (h : ∀ s ∈ stmts, (isFuncDef s || isClassDef s) = true ∧ defsPre s = [s]) :
    visitStmts stmts = stmts.map entryOf ∧
    (visitStmts stmts).length =
      stmts.countP (fun s => isFuncDef s) + stmts.countP (fun s => isClassDef s) := by
  have h1 : visitStmts stmts = stmts.map entryOf := by
    rw [visitStmts_eq_defs, defsPreList_eq_self stmts (fun s hs => (h s hs).2)]
  refine ⟨h1, ?_⟩
  rw [h1, List.length_map]
  exact (countP_add_eq_length stmts (fun s hs => (h s hs).1)).symm

/-- C7 witness: one top-level function and one top-level class give a
two-entry report in declaration order. -/
theorem top_level_line_count_witness :
    visitStmts c7Stmts = c7Stmts.map entryOf ∧
    (visitStmts c7Stmts).length =
      c7Stmts.countP (fun s => isFuncDef s) + c7Stmts.countP (fun s => isClassDef s) :=
  top_level_line_count c7Stmts (by
    intro s hs
    simp only [c7Stmts, List.mem_cons, List.not_mem_nil, or_false] at hs
    rcases hs with rfl | rfl
    · exact ⟨rfl, by simp [defsPre, defsPreList]⟩
    · exact ⟨rfl, by simp [defsPre, defsPreList]⟩)

/-- C10: there is no visit_AsyncFunctionDef method, so an async function
definition is only generic-visited: it emits no entry of its own (its
entry list is exactly its body's entry list), while the definitions
nested in its body are still visited and produce their own entries, one
per pre-order definition. -/
theorem async_def_no_entry :
    (∀ n a b, visitStmt (Stmt.asyncFunctionDef n a b) = visitStmts b) ∧
    (∀ n a b, visitStmt (Stmt.asyncFunctionDef n a b) = (defsPreList b).map entryOf) := by
  constructor <;> intro n a b <;> simp [visitStmt, visitStmts_eq_defs]

/-- C1 counterexample: for the source "return =", CPython tokenize
succeeds (it does not check grammar) and ast.parse raises SyntaxError;
this behaviour is recorded by the c1Tokr / c1Parse oracles.  An
exception therefore occurs during compression (parsing), yet
summarize_file returns "Error in parsing code: ..." — the SyntaxError is
caught inside summarize_code_with_ast, below summarize_file's handler —
which is not of the claimed "Error summarizing <path>: <message>"
shape (its first 17 characters are not "Error summarizing"). -/
theorem summarize_file_shape_counterexample :
    summarize_file c1Tokr c1Parse "bad.py" (Except.ok "return =") =
      "Error in parsing code: invalid syntax (<unknown>, line 1)" ∧
    (summarize_file c1Tokr c1Parse "bad.py" (Except.ok "return =")).data.take 17 ≠
      "Error summarizing".data := by
  refine ⟨by decide, by decide⟩

/-- C1 (amended): summarize_file never raises (totality of the model):
a failed read and a failed tokenization are converted into the one-line
"Error summarizing <path>: <message>" shape by summarize_file's handler;
a SyntaxError during parsing is converted — already inside
summarize_code_with_ast — into the one-line
"Error in parsing code: <message>" shape, which is returned, not raised;
when every stage succeeds the summary itself is returned.  Malformed
input such as "def f(:" fails tokenization (TokenizeError: EOF in
multi-line statement), hence yields the "Error summarizing" shape. -/
theorem summarize_file_error_handling
    (tokr : String → Except String (List Tok))
    (parse : String → Except String (List Stmt))
    (path code eR eT eP : String) (toks : List Tok) (tree : List Stmt) :
    (summarize_file tokr parse path (Except.error eR) =
      "Error summarizing " ++ path ++ ": " ++ eR) ∧
    (tokr code = Except.error eT →
      summarize_file tokr parse path (Except.ok code) =
        "Error summarizing " ++ path ++ ": " ++ eT) ∧
    (tokr code = Except.ok toks → parse (tokenize_code toks) = Except.error eP →
      summarize_file tokr parse path (Except.ok code) =
        "Error in parsing code: " ++ eP) ∧
    (tokr code = Except.ok toks → parse (tokenize_code toks) = Except.ok tree →
      summarize_file tokr parse path (Except.ok code) = get_summary tree) := by
  refine ⟨rfl, ?_, ?_, ?_⟩
  · intro h1
    simp [summarize_file, compress_code, h1]
  · intro h1 h2
    simp [summarize_file, compress_code, summarize_code_with_ast, h1, h2]
  · intro h1 h2
    simp [summarize_file, compress_code, summarize_code_with_ast, h1, h2]

/-- C1 witness: a read failure yields the "Error summarizing" shape; the
parse failure on "return =" yields the "Error in parsing code" shape. -/
theorem summarize_file_error_handling_witness :
    summarize_file c1Tokr c1Parse "bad.py" (Except.error "No such file") =
      "Error summarizing bad.py: No such file" ∧
    summarize_file c1Tokr c1Parse "bad.py" (Except.ok "return =") =
      "Error in parsing code: invalid syntax (<unknown>, line 1)" :=
  ⟨(summarize_file_error_handling c1Tokr c1Parse "bad.py" "return ="
      "No such file" "x" "invalid syntax (<unknown>, line 1)" c1Toks []).1,
   (summarize_file_error_handling c1Tokr c1Parse "bad.py" "return ="
      "No such file" "x" "invalid syntax (<unknown>, line 1)" c1Toks []).2.2.1 rfl rfl⟩

end Llemur
